import Mathlib

/-!
Shallow embedding of the Real-Time Stock Sentiment Analytics Pipeline core:
the SentimentScore data model (api/src/data/models.py), the service entry
points (api/src/service.py), the schema gateway (api/src/data/schema.py,
processing/src/bigquery.py) and the transform path (processing/src/pipeline.py,
processing/src/sentiment.py).

Modelling conventions:
- Python floats are modelled as rationals; Python ints as integers.
- Fallible external collaborators (the columnar store, the lexicon scorer,
  the ISO timestamp parser) are passed in as functions returning Except or
  Option, mirroring the try/except boundaries of the source.
- Alongside each store-calling operation, a companion `..._queries` or
  `..._calls` definition lists the store invocations that operation issues,
  translated from the same control flow.
-/

/-- Model of the Python expression `s.isalnum()`: true when `s` is non-empty
and every character is alphanumeric (ASCII fragment of the Python test). -/
def pyIsAlnum (s : String) : Bool :=
  !s.isEmpty && s.data.all Char.isAlphanum

/-- The ticker validity test shared verbatim by `SentimentScore.__init__`
(models.py line 35) and both service entry points (service.py lines 51 and
117): `not t or not t.isalnum() or len(t) > 5`. -/
def tickerInvalid (t : String) : Bool :=
  t.isEmpty || !(pyIsAlnum t) || decide (5 < t.length)

def tickerErrMsg : String := "Ticker must be a non-empty string (max 5 characters)"

def scoreErrMsg : String := "Sentiment score must be between -1.0 and 1.0"

def timestampErrMsg : String := "Timestamp must be a non-negative integer"

def countErrMsg : String := "Data point count must be a non-negative integer"

/-- The record held by the `SentimentScore` dataclass (models.py). -/
structure SentimentScore where
  ticker : String
  sentiment_score : ℚ
  timestamp : ℤ
  data_point_count : ℤ
  error : Option String
deriving DecidableEq, Repr

/-- Constructing a `SentimentScore` as the Python interpreter executes it.
The class defines `__init__` by hand (models.py lines 29-37); because the
dataclass decorator never overwrites an attribute already present in the
class body, this handwritten `__init__` is the one that runs, and
`__post_init__` is never invoked (it is only called from the generated
`__init__`, which is discarded). The handwritten `__init__` stores the five
fields and then checks only the ticker. -/
def SentimentScore.construct (ticker : String) (sentiment_score : ℚ)
    (timestamp : ℤ) (data_point_count : ℤ) (error : Option String) : SentimentScore :=
  let s : SentimentScore :=
    { ticker := ticker, sentiment_score := sentiment_score, timestamp := timestamp,
      data_point_count := data_point_count, error := error }
  if tickerInvalid s.ticker then { s with error := some tickerErrMsg } else s

/-- The body of `SentimentScore.__post_init__` (models.py lines 44-57),
translated as a function on records. In the running program this code is
unreachable (see `SentimentScore.construct`); it is embedded here because it
is what the specification describes. Each failed check overwrites `error`,
so the LAST failed check wins. Its ticker check, unlike the one in
`__init__`, does not test `isalnum`. -/
def SentimentScore.post_init (s : SentimentScore) : SentimentScore :=
  let s1 := if s.ticker.isEmpty || decide (5 < s.ticker.length) then
      { s with error := some tickerErrMsg } else s
  let s2 := if !(decide ((-1 : ℚ) ≤ s1.sentiment_score) && decide (s1.sentiment_score ≤ 1)) then
      { s1 with error := some scoreErrMsg } else s1
  let s3 := if decide (s2.timestamp < 0) then { s2 with error := some timestampErrMsg } else s2
  if decide (s3.data_point_count < 0) then { s3 with error := some countErrMsg } else s3

/-- `SentimentScore.is_valid` (models.py lines 59-62). -/
def SentimentScore.is_valid (s : SentimentScore) : Bool :=
  s.error.isNone

/-- Claim C1: constructing a SentimentScore with a sentiment_score outside
[-1.0, 1.0], or a negative timestamp, or a negative data_point_count, always
yields error != null; and error == null implies all field constraints hold.
The executed constructor checks only the ticker, so a record with a valid
ticker and sentiment_score 2.0, timestamp -1 and data_point_count -1 is
accepted with error == null, while the unreachable `__post_init__` validator
would have rejected it. -/
theorem C1_out_of_range_accepted_with_no_error :
    (SentimentScore.construct "AAPL" 2 (-1) (-1) none).error = none ∧
    (SentimentScore.construct "AAPL" 2 (-1) (-1) none).is_valid = true ∧
    ¬ ((-1 : ℚ) ≤ 2 ∧ (2 : ℚ) ≤ 1) ∧
    (SentimentScore.post_init
      { ticker := "AAPL", sentiment_score := 2, timestamp := -1,
        data_point_count := -1, error := none }).error ≠ none := by
  decide

/-- Claim C7 counterexample: with ticker "AAPL" valid and all three other
constraints violated, the claim predicts the stored error is the first
violated constraint in the fixed order, i.e. the sentiment-score message;
the constructed record actually carries no error at all. -/
theorem C7_counterexample_first_failure_not_stored :
    (SentimentScore.construct "AAPL" 2 (-1) (-1) none).error = none ∧
    (SentimentScore.construct "AAPL" 2 (-1) (-1) none).error ≠ some scoreErrMsg := by
  decide

/-- Claim C7 (amended): at construction only the ticker constraint is
checked (the handwritten `__init__` suppresses the generated one, so
`__post_init__` never runs); with one or more violated constraints the
stored error is the ticker message exactly when the ticker constraint is
violated, and null otherwise — never the polarity, timestamp or count
message. -/
theorem C7_amended_only_ticker_checked (t : String) (q : ℚ) (ts cnt : ℤ) :
    (SentimentScore.construct t q ts cnt none).error =
      (if tickerInvalid t then some tickerErrMsg else none) := by
  unfold SentimentScore.construct
  by_cases h : tickerInvalid t <;> simp [h]

/-! ### Service layer (api/src/service.py) -/

/-- The caller-supplied timeframe token of `GetStockSentiment`. The three
named values are the keys of `timeframe_map` (service.py lines 56-60); any
other protobuf enum value is carried by `unknown`. -/
inductive Timeframe where
  | tf1H
  | tf1D
  | tf1W
  | unknown (code : ℤ)
deriving DecidableEq, Repr

/-- `timeframe_map` (service.py lines 56-60): token to BigQuery interval
string; `none` models absence from the Python dict. -/
def timeframe_map : Timeframe → Option String
  | .tf1H => some "1 HOUR"
  | .tf1D => some "24 HOUR"
  | .tf1W => some "7 DAY"
  | .unknown _ => none

/-- The caller-supplied interval token of `StreamStockSentiment`. The three
named values are the keys of `interval_map` (service.py lines 126-130); any
other protobuf enum value is carried by `unknown`. -/
inductive IntervalTok where
  | i1M
  | i1H
  | i1D
  | unknown (code : ℤ)
deriving DecidableEq, Repr

/-- `interval_map` (service.py lines 126-130): token to bucket width in
seconds; `none` models absence from the Python dict. -/
def interval_map : IntervalTok → Option ℤ
  | .i1M => some 60
  | .i1H => some 3600
  | .i1D => some 86400
  | .unknown _ => none

def serviceTickerErrMsg : String :=
  "Ticker must be a valid alphanumeric string (max 5 characters)"

def timeRangeErrMsg : String := "Start time must be less than end time"

/-- One aggregated row as returned by the grouped BigQuery query in
service.py (AVG sentiment, bucket timestamp, COUNT). -/
structure AggRow where
  sentiment_score : ℚ
  timestamp : ℤ
  data_point_count : ℤ
deriving DecidableEq, Repr

/-- The parameter set bound into the streaming query job (service.py lines
144-151). -/
structure StreamQuery where
  ticker : String
  start_time : ℤ
  end_time : ℤ
  interval_seconds : ℤ
deriving DecidableEq, Repr

/-- One message yielded by `stream_stock_sentiment`: either a data dict with
the four row keys (service.py lines 157-162) or a bare error dict. -/
inductive StreamMsg where
  | row (ticker : String) (sentiment_score : ℚ) (timestamp : ℤ) (data_point_count : ℤ)
  | err (msg : String)
deriving DecidableEq, Repr

/-- `SentimentService.stream_stock_sentiment` (service.py lines 101-165),
with the BigQuery backend abstracted as `store` (Except.error models a
GoogleAPIError raised by the query). The generator is modelled by the list
of yielded messages, in order. Note line 131: an interval token outside
`interval_map` is silently replaced by the default 3600. -/
def stream_stock_sentiment (store : StreamQuery → Except String (List AggRow))
    (ticker : String) (start_time end_time : ℤ) (interval : IntervalTok) : List StreamMsg :=
  if tickerInvalid ticker then [.err serviceTickerErrMsg]
  else if decide (start_time ≥ end_time) then [.err timeRangeErrMsg]
  else
    let interval_seconds := (interval_map interval).getD 3600
    match store ⟨ticker, start_time, end_time, interval_seconds⟩ with
    | .ok rows => rows.map fun r => .row ticker r.sentiment_score r.timestamp r.data_point_count
    | .error e => [.err ("Internal server error: " ++ e)]

/-- The store queries issued by `stream_stock_sentiment`, translated from
the same control flow: none on either validation failure, exactly one
otherwise. -/
def stream_stock_sentiment_queries (ticker : String) (start_time end_time : ℤ)
    (interval : IntervalTok) : List StreamQuery :=
  if tickerInvalid ticker then []
  else if decide (start_time ≥ end_time) then []
  else [⟨ticker, start_time, end_time, (interval_map interval).getD 3600⟩]

/-- The ticker parameter bound into the unary query job (service.py lines
74-76; the start, end and interval placeholders of that query are never
bound). -/
structure GetQuery where
  ticker : String
deriving DecidableEq, Repr

/-- The dict returned by `get_stock_sentiment`: either a bare error dict
(invalid ticker or GoogleAPIError) or `score.to_dict()` for a
SentimentScore. -/
inductive GetResult where
  | failure (msg : String)
  | score (s : SentimentScore)
deriving DecidableEq, Repr

def noDataMsg (ticker bq_timeframe : String) : String :=
  "No data available for " ++ ticker ++ " in the last " ++ bq_timeframe

/-- `SentimentService.get_stock_sentiment` (service.py lines 37-99), store
abstracted as for the streaming form; `next(query_job.result(), None)` is
the head of the row list. -/
def get_stock_sentiment (store : GetQuery → Except String (List AggRow))
    (ticker : String) (timeframe : Timeframe) : GetResult :=
  if tickerInvalid ticker then .failure serviceTickerErrMsg
  else
    let bq_timeframe := (timeframe_map timeframe).getD "1 HOUR"
    match store ⟨ticker⟩ with
    | .error e => .failure ("Internal server error: " ++ e)
    | .ok rows =>
      match rows.head? with
      | some r => .score (SentimentScore.construct ticker r.sentiment_score
          r.timestamp r.data_point_count none)
      | none => .score (SentimentScore.construct ticker 0 0 0
          (some (noDataMsg ticker bq_timeframe)))

/-- A store double whose streaming query yields one aggregated row. -/
def oneRowStreamStore : StreamQuery → Except String (List AggRow) :=
  fun _ => .ok [⟨1, 1711500000, 30⟩]

/-- Claim C2: an interval token outside the lookup table makes the stream
emit exactly one unsupported-interval error message and close, never a
silent default. Evaluating the code at such a token shows the opposite: the
token is absent from `interval_map`, yet the stream issues a normal store
query with the default bucket width 3600 and yields the ordinary data
messages, none of which is an error. -/
theorem C2_unknown_interval_silently_defaults :
    interval_map (.unknown 99) = none ∧
    stream_stock_sentiment oneRowStreamStore "TSLA" 1711496400 1711507200 (.unknown 99) =
      [.row "TSLA" 1 1711500000 30] ∧
    stream_stock_sentiment_queries "TSLA" 1711496400 1711507200 (.unknown 99) =
      [⟨"TSLA", 1711496400, 1711507200, 3600⟩] := by
  decide

/-- Claim C8: with a store returning zero rows, the unary entry point
returns a score dict whose error field is the no-data message, while the
streaming entry point with the same valid inputs emits zero messages and
closes cleanly. -/
theorem C8_no_data_asymmetry (ticker : String) (tf : Timeframe)
    (s e : ℤ) (i : IntervalTok)
    (hticker : tickerInvalid ticker = false) (hrange : s < e) :
    get_stock_sentiment (fun _ => .ok []) ticker tf =
      .score (SentimentScore.construct ticker 0 0 0
        (some (noDataMsg ticker ((timeframe_map tf).getD "1 HOUR")))) ∧
    (get_stock_sentiment (fun _ => .ok []) ticker tf =
      .score (SentimentScore.construct ticker 0 0 0
        (some (noDataMsg ticker ((timeframe_map tf).getD "1 HOUR")))) →
      (SentimentScore.construct ticker 0 0 0
        (some (noDataMsg ticker ((timeframe_map tf).getD "1 HOUR")))).error =
        some (noDataMsg ticker ((timeframe_map tf).getD "1 HOUR"))) ∧
    stream_stock_sentiment (fun _ => .ok []) ticker s e i = [] := by
  refine ⟨?_, ?_, ?_⟩
  · unfold get_stock_sentiment
    simp [hticker]
  · intro _
    unfold SentimentScore.construct
    simp [hticker]
  · unfold stream_stock_sentiment
    have : ¬ (s ≥ e) := not_le.mpr hrange
    simp [hticker, this]

/-- Witness for C8 at ticker AAPL, timeframe 1h, range 0 < 10. -/
theorem C8_witness :
    tickerInvalid "AAPL" = false ∧ (0 : ℤ) < 10 ∧
    (get_stock_sentiment (fun _ => .ok []) "AAPL" .tf1H =
      .score (SentimentScore.construct "AAPL" 0 0 0
        (some (noDataMsg "AAPL" ((timeframe_map .tf1H).getD "1 HOUR")))) ∧
    (get_stock_sentiment (fun _ => .ok []) "AAPL" .tf1H =
      .score (SentimentScore.construct "AAPL" 0 0 0
        (some (noDataMsg "AAPL" ((timeframe_map .tf1H).getD "1 HOUR")))) →
      (SentimentScore.construct "AAPL" 0 0 0
        (some (noDataMsg "AAPL" ((timeframe_map .tf1H).getD "1 HOUR")))).error =
        some (noDataMsg "AAPL" ((timeframe_map .tf1H).getD "1 HOUR"))) ∧
    stream_stock_sentiment (fun _ => .ok []) "AAPL" 0 10 .i1H = []) :=
  ⟨by decide, by decide, C8_no_data_asymmetry "AAPL" .tf1H 0 10 .i1H (by decide) (by decide)⟩

/-! ### Schema gateway (api/src/data/schema.py, processing/src/bigquery.py) -/

/-- A Python value as it may appear in a record dict handed to the load
gateway: int, float, str, a datetime object, or None. -/
inductive PyVal where
  | int (n : ℤ)
  | float (q : ℚ)
  | str (s : String)
  | datetime (epoch_seconds : ℤ)
  | pyNone
deriving DecidableEq, Repr

/-- A record dict over the five schema column names; `Option.none` models an
absent key. -/
structure PyRecord where
  ticker : Option PyVal
  sentiment_score : Option PyVal
  timestamp : Option PyVal
  data_point_count : Option PyVal
  source : Option PyVal
deriving DecidableEq, Repr

/-- `validate_schema_compatibility` (schema.py lines 75-111): presence of
the four required keys, then per-field runtime-type and range checks in
source order. The ticker check requires only a str of length at most 5 —
neither non-emptiness nor an alphanumeric test. -/
def validate_schema_compatibility (data : PyRecord) : Bool :=
  (data.ticker.isSome && data.sentiment_score.isSome &&
    data.timestamp.isSome && data.data_point_count.isSome) &&
  (match data.ticker with
   | some (.str s) => decide (s.length ≤ 5)
   | _ => false) &&
  (match data.sentiment_score with
   | some (.int n) => decide ((-1 : ℤ) ≤ n) && decide (n ≤ 1)
   | some (.float q) => decide ((-1 : ℚ) ≤ q) && decide (q ≤ 1)
   | _ => false) &&
  (match data.timestamp with
   | some (.int _) => true
   | some (.float _) => true
   | _ => false) &&
  (match data.data_point_count with
   | some (.int n) => decide (0 ≤ n)
   | _ => false) &&
  (match data.source with
   | none => true
   | some (.str _) => true
   | some _ => false)

/-- `BigQueryClient.insert_data` (bigquery.py lines 46-82), with the store
insert `insert_rows_json` abstracted: Except.error models a raised
GoogleAPIError, Except.ok carries the per-row error list. Empty input, or
input left empty after schema filtering, returns False — the same value the
docstring assigns to a failed insert. -/
def insert_data (insert_rows_json : List PyRecord → Except String (List String))
    (data : List PyRecord) : Bool :=
  if data.isEmpty then false
  else
    let valid_data := data.filter validate_schema_compatibility
    if valid_data.isEmpty then false
    else
      match insert_rows_json valid_data with
      | .ok errors => errors.isEmpty
      | .error _ => false

/-- The insert calls issued by `insert_data`, translated from the same
control flow: none on either early return, one bulk call otherwise. -/
def insert_data_calls (data : List PyRecord) : List (List PyRecord) :=
  if data.isEmpty then []
  else
    let valid_data := data.filter validate_schema_compatibility
    if valid_data.isEmpty then [] else [valid_data]

/-- `SentimentPipeline.load_to_bigquery` (pipeline.py lines 150-183): same
shape as `insert_data` but with no second early return, so a batch emptied
by filtering still issues one (empty) bulk insert. -/
def load_to_bigquery (insert_rows_json : List PyRecord → Except String (List String))
    (data : List PyRecord) : Bool :=
  if data.isEmpty then false
  else
    match insert_rows_json (data.filter validate_schema_compatibility) with
    | .ok errors => errors.isEmpty
    | .error _ => false

/-- The insert calls issued by `load_to_bigquery`. -/
def load_to_bigquery_calls (data : List PyRecord) : List (List PyRecord) :=
  if data.isEmpty then [] else [data.filter validate_schema_compatibility]

/-- The parameter set bound into the `query_data` query (bigquery.py lines
115-121). -/
structure DataQuery where
  ticker : String
  start_time : ℤ
  end_time : ℤ
deriving DecidableEq, Repr

/-- One row of the `query_data` result dicts (bigquery.py lines 125-134). -/
structure DataRow where
  ticker : String
  sentiment_score : ℚ
  timestamp : ℤ
  data_point_count : ℤ
  source : String
deriving DecidableEq, Repr

/-- `BigQueryClient.query_data` (bigquery.py lines 84-139), store
abstracted: the empty list is returned alike for invalid inputs (empty
ticker or start_time at or above end_time), for a store-level failure, and
for a genuinely empty result. -/
def query_data (store : DataQuery → Except String (List DataRow))
    (ticker : String) (start_time end_time : ℤ) : List DataRow :=
  if ticker.isEmpty || decide (start_time ≥ end_time) then []
  else
    match store ⟨ticker, start_time, end_time⟩ with
    | .ok rows => rows
    | .error _ => []

/-- The store queries issued by `query_data`. -/
def query_data_queries (ticker : String) (start_time end_time : ℤ) : List DataQuery :=
  if ticker.isEmpty || decide (start_time ≥ end_time) then []
  else [⟨ticker, start_time, end_time⟩]

/-! ### Sentiment analysis and transform (processing/src/sentiment.py,
processing/src/pipeline.py) -/

/-- `SentimentAnalyzer.analyze_text` (sentiment.py lines 25-66). The
TextBlob polarity call is abstracted as `scorer`; Except.error models an
exception raised inside the lexicon model, which the bare except clause
turns into a None return. A constructed score that fails validation is also
turned into None. -/
def analyze_text (scorer : String → Except String ℚ)
    (text ticker : String) (timestamp : ℤ) : Option SentimentScore :=
  if text.isEmpty then none
  else if ticker.isEmpty then none
  else
    match scorer text with
    | .error _ => none
    | .ok polarity =>
      let score := SentimentScore.construct ticker polarity timestamp 1 none
      if score.is_valid then some score else none

/-- One raw item as read by `analyze_batch`: the values of the keys "text"
and "ticker" (defaulting to the empty string when absent), the value of the
key "timestamp" (None when absent), and the value of the key "created_at",
which `analyze_batch` never reads. -/
structure RawRecord where
  text : String
  ticker : String
  timestamp : Option PyVal
  created_at : Option String
deriving DecidableEq, Repr

/-- The per-item step of `analyze_batch` (sentiment.py lines 83-101): a str
timestamp is parsed to epoch seconds via `parse_iso` (skip on parse
failure), any non-int timestamp — including an absent key — is skipped,
then `analyze_text` runs. -/
def analyze_item (scorer : String → Except String ℚ) (parse_iso : String → Option ℤ)
    (item : RawRecord) : Option SentimentScore :=
  match item.timestamp with
  | some (.str ts) =>
    match parse_iso ts with
    | some n => analyze_text scorer item.text item.ticker n
    | none => none
  | some (.int n) => analyze_text scorer item.text item.ticker n
  | _ => none

/-- `SentimentAnalyzer.analyze_batch` (sentiment.py lines 68-104). -/
def analyze_batch (scorer : String → Except String ℚ) (parse_iso : String → Option ℤ)
    (data : List RawRecord) : List SentimentScore :=
  if data.isEmpty then []
  else data.filterMap (analyze_item scorer parse_iso)

/-- `SentimentPipeline.transform` (pipeline.py lines 82-109, the live path
up to the first return): delegate to `analyze_batch`, then shape each score
into a row dict whose timestamp value is a datetime object. The per-tweet
code below the first return statement, which reads the "created_at" key, is
unreachable. -/
def transform (scorer : String → Except String ℚ) (parse_iso : String → Option ℤ)
    (raw_data : List RawRecord) : List PyRecord :=
  if raw_data.isEmpty then []
  else
    (analyze_batch scorer parse_iso raw_data).map fun score =>
      { ticker := some (.str score.ticker)
        sentiment_score := some (.float score.sentiment_score)
        timestamp := some (.datetime score.timestamp)
        data_point_count := some (.int score.data_point_count)
        source := some (.str "X") }

/-- The single raw record of the round-trip property: text, ticker and a
created_at value, but no "timestamp" key. -/
def c3RawRecord : RawRecord :=
  { text := "I love $AAPL", ticker := "AAPL", timestamp := none,
    created_at := some "2025-03-27T12:00:00Z" }

/-- Claim C3: transform on the single raw record with text "I love $AAPL",
ticker "AAPL" and created_at "2025-03-27T12:00:00Z" yields exactly one
record. Evaluating the code on that record yields the empty list instead,
for every scorer and every timestamp parser: the live batch path reads the
key "timestamp", which raw records do not carry (they carry "created_at"),
so the item is skipped before scoring. -/
theorem C3_round_trip_record_dropped (scorer : String → Except String ℚ)
    (parse_iso : String → Option ℤ) :
    transform scorer parse_iso [c3RawRecord] = [] := rfl

/-- Claim C4 counterexample: with start 10 at or above end 5, `query_data`
returns the plain empty list — the very value a valid query with an empty
store returns — so no validation-error value is surfaced to the caller. -/
theorem C4_counterexample_no_error_value :
    query_data (fun _ => .ok []) "AAPL" 10 5 = [] ∧
    query_data (fun _ => .ok []) "AAPL" 5 10 = [] :=
  ⟨rfl, rfl⟩

/-- Claim C4 (amended): for every ticker, start at or above end, both
aggregation query operations reject before any store round-trip — zero
store queries are issued; the streaming form emits exactly one message,
which is an error, while `query_data` returns the plain empty list rather
than an error value. -/
theorem C4_amended_reject_before_store
    (dstore : DataQuery → Except String (List DataRow))
    (sstore : StreamQuery → Except String (List AggRow))
    (t : String) (s e : ℤ) (i : IntervalTok) (h : s ≥ e) :
    (∃ m, stream_stock_sentiment sstore t s e i = [.err m]) ∧
    stream_stock_sentiment_queries t s e i = [] ∧
    query_data dstore t s e = [] ∧
    query_data_queries t s e = [] := by
  have hd : decide (s ≥ e) = true := decide_eq_true h
  refine ⟨?_, ?_, ?_, ?_⟩
  · by_cases ht : tickerInvalid t
    · exact ⟨serviceTickerErrMsg, by unfold stream_stock_sentiment; simp [ht]⟩
    · exact ⟨timeRangeErrMsg, by unfold stream_stock_sentiment; simp [ht, hd]⟩
  · unfold stream_stock_sentiment_queries
    by_cases ht : tickerInvalid t <;> simp [ht, hd]
  · unfold query_data
    simp [hd]
  · unfold query_data_queries
    simp [hd]

/-- Witness for C4 at ticker AAPL and range 5 at or above 3. -/
theorem C4_witness :
    (5 : ℤ) ≥ 3 ∧
    ((∃ m, stream_stock_sentiment (fun _ => .ok []) "AAPL" 5 3 .i1H = [.err m]) ∧
     stream_stock_sentiment_queries "AAPL" 5 3 .i1H = [] ∧
     query_data (fun _ => .error "boom") "AAPL" 5 3 = [] ∧
     query_data_queries "AAPL" 5 3 = []) :=
  ⟨by decide, C4_amended_reject_before_store (fun _ => .error "boom")
    (fun _ => .ok []) "AAPL" 5 3 .i1H (by decide)⟩

/-- A schema-conforming row used to exhibit the success and failure values
of the load gateway. -/
def validLoadRow : PyRecord :=
  { ticker := some (.str "AAPL"), sentiment_score := some (.float 1),
    timestamp := some (.int 1711500000), data_point_count := some (.int 50),
    source := some (.str "X") }

/-- Claim C5 counterexample: loading the empty sequence returns False,
which is exactly the value a failed bulk insert returns (third conjunct
shows True is the success value), so the empty input is signalled as a
failure rather than as a success with insertedCount 0; zero insert calls
are issued. -/
theorem C5_counterexample_empty_load_signals_failure :
    insert_data (fun _ => .ok []) [] = false ∧
    insert_data (fun _ => .error "quota") [validLoadRow] = false ∧
    insert_data (fun _ => .ok []) [validLoadRow] = true ∧
    insert_data_calls [] = [] := by
  decide

/-- Claim C5 (amended): `insert_data` on an empty sequence, or on one left
empty by schema filtering, issues zero insert calls and logs a warning, but
returns False — the same value as a failed insert — rather than a non-error
insertedCount of 0; `load_to_bigquery` behaves the same on plainly empty
input. -/
theorem C5_amended_empty_load_returns_false
    (ins : List PyRecord → Except String (List String))
    (data : List PyRecord) (h : data.filter validate_schema_compatibility = []) :
    insert_data ins data = false ∧ insert_data_calls data = [] ∧
    load_to_bigquery ins [] = false ∧ load_to_bigquery_calls [] = [] := by
  refine ⟨?_, ?_, rfl, rfl⟩
  · unfold insert_data
    by_cases hd : data.isEmpty <;> simp [hd, h]
  · unfold insert_data_calls
    by_cases hd : data.isEmpty <;> simp [hd, h]

/-- Witness for C5 at the empty record list. -/
theorem C5_witness :
    ([] : List PyRecord).filter validate_schema_compatibility = [] ∧
    (insert_data (fun _ => .ok []) [] = false ∧ insert_data_calls [] = [] ∧
     load_to_bigquery (fun _ => .ok []) [] = false ∧ load_to_bigquery_calls [] = []) :=
  ⟨rfl, C5_amended_empty_load_returns_false (fun _ => .ok []) [] rfl⟩

/-- A scorer double whose lexicon model fails on every text. -/
def failingScorer : String → Except String ℚ :=
  fun _ => .error "lexicon failure"

/-- Claim C6 counterexample: with a failing lexicon model and a legal,
non-empty text and ticker, `analyze_text` returns None — no record at all —
rather than a record with neutral polarity 0.0 and a diagnostic. -/
theorem C6_counterexample_failure_returns_none :
    analyze_text failingScorer "great earnings" "AAPL" 1711500000 = none ∧
    (analyze_text failingScorer "great earnings" "AAPL" 1711500000).isSome = false :=
  ⟨rfl, rfl⟩

/-- Claim C6 (amended): a failure inside the lexicon model never propagates
to the caller — the bare except clause absorbs it — but the degraded result
is None (the record is dropped and the failure logged), not a SentimentScore
with polarity 0.0. -/
theorem C6_amended_failure_degrades_to_none
    (scorer : String → Except String ℚ) (text ticker : String) (ts : ℤ)
    (emsg : String) (h : scorer text = .error emsg) :
    analyze_text scorer text ticker ts = none := by
  unfold analyze_text
  by_cases htext : text.isEmpty
  · simp [htext]
  · by_cases hticker : ticker.isEmpty
    · simp [htext, hticker]
    · simp [htext, hticker, h]

/-- Witness for C6 at the failing scorer double. -/
theorem C6_witness :
    failingScorer "great earnings" = .error "lexicon failure" ∧
    analyze_text failingScorer "great earnings" "AAPL" 1711500000 = none :=
  ⟨rfl, C6_amended_failure_degrades_to_none failingScorer "great earnings" "AAPL"
    1711500000 "lexicon failure" rfl⟩

/-- A record dict whose ticker is the empty string and whose remaining
fields conform to the storage schema. -/
def emptyTickerRow (q : ℚ) (ts cnt : ℤ) : PyRecord :=
  { ticker := some (.str ""), sentiment_score := some (.float q),
    timestamp := some (.int ts), data_point_count := some (.int cnt),
    source := some (.str "X") }

/-- Claim C9: the defensive schema re-validation accepts a record whose
ticker is the empty string whenever the other fields conform (its ticker
check demands only a str of length at most 5), although the empty ticker
violates the 1-5 alphanumeric ticker invariant; the load gateway therefore
passes such a record to the bulk insert call. -/
theorem C9_empty_ticker_admitted (q : ℚ) (ts cnt : ℤ)
    (hq1 : (-1 : ℚ) ≤ q) (hq2 : q ≤ 1) (hcnt : (0 : ℤ) ≤ cnt) :
    validate_schema_compatibility (emptyTickerRow q ts cnt) = true ∧
    tickerInvalid "" = true ∧
    insert_data_calls [emptyTickerRow q ts cnt] = [[emptyTickerRow q ts cnt]] := by
  have hv : validate_schema_compatibility (emptyTickerRow q ts cnt) = true := by
    unfold validate_schema_compatibility emptyTickerRow
    simp [hq1, hq2, hcnt]
  refine ⟨hv, by decide, ?_⟩
  unfold insert_data_calls
  simp [List.filter_cons, hv]

/-- Witness for C9 at polarity 1, timestamp 1711500000 and count 1. -/
theorem C9_witness :
    ((-1 : ℚ) ≤ 1 ∧ (1 : ℚ) ≤ 1 ∧ (0 : ℤ) ≤ 1) ∧
    (validate_schema_compatibility (emptyTickerRow 1 1711500000 1) = true ∧
     tickerInvalid "" = true ∧
     insert_data_calls [emptyTickerRow 1 1711500000 1] =
       [[emptyTickerRow 1 1711500000 1]]) :=
  ⟨⟨by decide, by decide, by decide⟩,
    C9_empty_ticker_admitted 1 1711500000 1 (by decide) (by decide) (by decide)⟩

/-- Claim C10: `query_data` returns the empty list alike for an invalid
input (empty ticker, or start at or above end), for a store-level query
failure, and for a genuinely empty result, so its caller cannot tell
NoDataFound from ValidationError or UpstreamUnavailable by the returned
value. -/
theorem C10_empty_list_collapses_outcomes
    (store : DataQuery → Except String (List DataRow))
    (t : String) (s e : ℤ) (emsg : String) :
    query_data store "" s e = [] ∧
    (s ≥ e → query_data store t s e = []) ∧
    query_data (fun _ => .error emsg) t s e = [] ∧
    query_data (fun _ => .ok []) t s e = [] := by
  refine ⟨?_, ?_, ?_, ?_⟩
  · unfold query_data
    have hemp : ("" : String).isEmpty = true := rfl
    simp [hemp]
  · intro h
    unfold query_data
    simp [decide_eq_true h]
  · unfold query_data
    split <;> simp
  · unfold query_data
    split <;> simp

/-- Witness for C10 at concrete stores and inputs (empty ticker; range 5 at
or above 3; failing store; empty store). -/
theorem C10_witness :
    query_data (fun _ => .error "boom") "" 0 10 = [] ∧
    ((5 : ℤ) ≥ 3 ∧ query_data (fun _ => .error "boom") "AAPL" 5 3 = []) ∧
    query_data (fun _ => .error "boom") "AAPL" 3 5 = [] ∧
    query_data (fun _ => .ok []) "AAPL" 3 5 = [] := by
  have h1 := C10_empty_list_collapses_outcomes (fun _ => .error "boom") "AAPL" 5 3 "boom"
  have h2 := C10_empty_list_collapses_outcomes (fun _ => .error "boom") "AAPL" 3 5 "boom"
  exact ⟨(C10_empty_list_collapses_outcomes (fun _ => .error "boom") "X" 0 10 "boom").1,
    ⟨by decide, h1.2.1 (by decide)⟩, h2.2.2.1, h2.2.2.2⟩
